import Mathlib

/-!
Verification of the report-aggregation logic of `src/review.js`
(bank policy review demo).

The script defines a literal list of policy violations and a pure
function `generatePolicyReport` that aggregates them into a report:
per-severity counts, a category→count map, a pass/fail verdict and an
ordered recommendation list.  We embed the data model and the
aggregator shallowly and prove the specified properties.
-/

namespace BankPolicyReview

/-- A `Rule` record as in `review.js`: identifier, name, severity
(an open string, e.g. "critical"), category (an open string). -/
structure Rule where
  id : String
  name : String
  severity : String
  category : String
deriving DecidableEq

/-- A `Violation` record as in `review.js`: the broken rule, the line
number, the offending code snippet, a message and a remediation. -/
structure Violation where
  rule : Rule
  lineNumber : Nat
  code : String
  message : String
  remediation : String
deriving DecidableEq

/-- The `summary` object built by `generatePolicyReport`. -/
structure Summary where
  total : Nat
  critical : Nat
  high : Nat
  medium : Nat
  low : Nat
  byCategory : List (String × Nat)
deriving DecidableEq

/-- The report object returned by `generatePolicyReport`. -/
structure Report where
  violations : List Violation
  summary : Summary
  passed : Bool
  recommendations : List String
deriving DecidableEq

/-- JS `summary.byCategory[c] = (summary.byCategory[c] || 0) + 1` on an
object modelled as an association list in key-insertion order: increment
the entry for `c` if present, otherwise append `(c, 1)` at the end. -/
def bump (m : List (String × Nat)) (c : String) : List (String × Nat) :=
  match m with
  | [] => [(c, 1)]
  | (k, n) :: rest => if k == c then (k, n + 1) :: rest else (k, n) :: bump rest c

/-- JS property read `m[c]` used in a numeric comparison: the stored
count when the key is present, and `0` for an absent key (in JS the read
yields `undefined` and `undefined > 0` is false, which agrees with `0`). -/
def lookupCount (m : List (String × Nat)) (c : String) : Nat :=
  match m with
  | [] => 0
  | (k, n) :: rest => if k == c then n else lookupCount rest c

/-- Recommendation string pushed when `summary.critical > 0`. -/
def criticalMsg : String := "🔴 CRITICAL: Address all critical security violations immediately"

/-- Recommendation string pushed when `summary.high > 0`. -/
def highMsg : String := "🟠 HIGH: Review and fix high-priority security issues"

/-- Recommendation string pushed when `summary.medium > 0`. -/
def mediumMsg : String := "🟡 MEDIUM: Consider addressing medium-priority issues"

/-- Recommendation string pushed when the data-protection category count is positive. -/
def dataProtectionMsg : String := "📊 Data Protection: Implement proper data handling and encryption"

/-- Recommendation string pushed when the audit category count is positive. -/
def auditMsg : String := "📋 Audit: Add comprehensive audit logging for financial operations"

/-- Recommendation string pushed when the security category count is positive. -/
def securityMsg : String := "🔒 Security: Review and fix security vulnerabilities"

/-- `generatePolicyReport` from `review.js`, lines 73–120: severity
counts by filtering, category counts by a single pass of increments,
`passed = (critical == 0 && high == 0)`, then six conditional pushes
onto the recommendation list, in the fixed source order. -/
def generatePolicyReport (violations : List Violation) : Report :=
  let summary : Summary :=
    { total := violations.length
      critical := (violations.filter (fun v => v.rule.severity == "critical")).length
      high := (violations.filter (fun v => v.rule.severity == "high")).length
      medium := (violations.filter (fun v => v.rule.severity == "medium")).length
      low := (violations.filter (fun v => v.rule.severity == "low")).length
      byCategory := violations.foldl (fun acc v => bump acc v.rule.category) [] }
  let passed := summary.critical == 0 && summary.high == 0
  let recommendations : List String := []
  let recommendations := if summary.critical > 0 then recommendations ++ [criticalMsg] else recommendations
  let recommendations := if summary.high > 0 then recommendations ++ [highMsg] else recommendations
  let recommendations := if summary.medium > 0 then recommendations ++ [mediumMsg] else recommendations
  let recommendations := if lookupCount summary.byCategory "data-protection" > 0 then recommendations ++ [dataProtectionMsg] else recommendations
  let recommendations := if lookupCount summary.byCategory "audit" > 0 then recommendations ++ [auditMsg] else recommendations
  let recommendations := if lookupCount summary.byCategory "security" > 0 then recommendations ++ [securityMsg] else recommendations
  { violations := violations
    summary := summary
    passed := passed
    recommendations := recommendations }

/-- The literal five-violation dataset `policyViolations` of `review.js`,
lines 9–70, reproduced field for field. -/
def policyViolations : List Violation :=
  [ { rule := { id := "BANK_002", name := "Hardcoded Credentials",
                severity := "critical", category := "security" }
      lineNumber := 7
      code := "  password: \x27admin123\x27, // BANK_002: Hardcoded credentials detected"
      message := "Hardcoded credentials detected - security risk"
      remediation := "Use environment variables, secure vaults, or configuration management" },
    { rule := { id := "BANK_001", name := "Personal Data Exposure",
                severity := "critical", category := "data-protection" }
      lineNumber := 16
      code := "  console.log(`Processing customer: $\x7bcustomer.ssn\x7d`) // BANK_001: Personal data exposure"
      message := "Potential exposure of sensitive financial data detected"
      remediation := "Use encryption, masking, or secure data handling practices" },
    { rule := { id := "BANK_003", name := "SQL Injection Risk",
                severity := "high", category := "security" }
      lineNumber := 29
      code := "  const query = `SELECT * FROM users WHERE id = $\x7buserId\x7d` // BANK_003: SQL injection risk"
      message := "Potential SQL injection vulnerability detected"
      remediation := "Use parameterized queries or ORM libraries" },
    { rule := { id := "BANK_006", name := "Audit Trail Missing",
                severity := "high", category := "audit" }
      lineNumber := 48
      code := "function transferMoney(fromAccount: string, toAccount: string, amount: number) \x7b"
      message := "Financial operation detected without audit logging"
      remediation := "Implement comprehensive audit logging for all financial operations" },
    { rule := { id := "BANK_005", name := "Missing Input Validation",
                severity := "medium", category := "security" }
      lineNumber := 40
      code := "  const amount = req.body.amount // BANK_005: Missing input validation"
      message := "User input used without validation"
      remediation := "Implement proper input validation and sanitization" } ]

/-- A severity string is recognized when it is one of the four levels
the aggregator buckets by. -/
def recognizedSeverity (s : String) : Bool :=
  s == "critical" || s == "high" || s == "medium" || s == "low"

/-- Sum of the counts stored in a category map. -/
def sumCounts (m : List (String × Nat)) : Nat :=
  (m.map Prod.snd).sum

/-! ### Helper lemmas -/

lemma sumCounts_nil : sumCounts [] = 0 := rfl

lemma sumCounts_bump (m : List (String × Nat)) (c : String) :
    sumCounts (bump m c) = sumCounts m + 1 := by
  induction m with
  | nil => simp [bump, sumCounts]
  | cons p rest ih =>
      obtain ⟨k, n⟩ := p
      by_cases h : k = c
      · simp only [bump, beq_iff_eq, h, if_true]
        simp [sumCounts]
        omega
      · simp only [bump, beq_iff_eq, h, if_false]
        simp [sumCounts] at ih ⊢
        omega

lemma sumCounts_foldl (l : List Violation) (m : List (String × Nat)) :
    sumCounts (l.foldl (fun acc v => bump acc v.rule.category) m) =
      sumCounts m + l.length := by
  induction l generalizing m with
  | nil => simp
  | cons v t ih =>
      simp only [List.foldl_cons, List.length_cons, ih, sumCounts_bump]
      omega

lemma severity_sum_eq_filter_recognized (l : List Violation) :
    (l.filter (fun v => v.rule.severity == "critical")).length +
    (l.filter (fun v => v.rule.severity == "high")).length +
    (l.filter (fun v => v.rule.severity == "medium")).length +
    (l.filter (fun v => v.rule.severity == "low")).length =
    (l.filter (fun v => recognizedSeverity v.rule.severity)).length := by
  induction l with
  | nil => rfl
  | cons v t ih =>
      simp only [List.filter_cons, recognizedSeverity] at ih ⊢
      by_cases h1 : v.rule.severity = "critical" <;>
        by_cases h2 : v.rule.severity = "high" <;>
        by_cases h3 : v.rule.severity = "medium" <;>
        by_cases h4 : v.rule.severity = "low" <;>
        simp_all <;> omega

/-- A violation whose severity is not one of the four recognized levels,
used as a boundary-case input. -/
def unknownSeverityViolation : Violation :=
  { rule := { id := "X_000", name := "Unknown Severity", severity := "unknown", category := "misc" }
    lineNumber := 1
    code := "x"
    message := "m"
    remediation := "r" }

/-! ### Claim theorems -/

/-- C1: for every input list of violations, the report's `passed` flag is
true iff no violation has severity "critical" and none has severity
"high"; violations of any other severity (medium, low, or otherwise)
never make `passed` false. -/
theorem passed_iff_no_critical_or_high (l : List Violation) :
    (generatePolicyReport l).passed = true ↔
      ∀ v ∈ l, v.rule.severity ≠ "critical" ∧ v.rule.severity ≠ "high" := by
  simp only [generatePolicyReport, Bool.and_eq_true, beq_iff_eq,
    List.length_eq_zero, List.filter_eq_nil_iff]
  constructor
  · rintro ⟨h1, h2⟩ v hv
    exact ⟨h1 v hv, h2 v hv⟩
  · intro h
    exact ⟨fun v hv => (h v hv).1, fun v hv => (h v hv).2⟩

/-- C2: for every input list of violations (including the empty list),
`summary.total` equals the length of the input list. -/
theorem summary_total_eq_length (l : List Violation) :
    (generatePolicyReport l).summary.total = l.length := rfl

/-- C3 fails as stated: a single violation with the unrecognized severity
"unknown" gives severity-count sum 0 while `summary.total` is 1. -/
theorem severity_sum_ne_total_on_unknown :
    (generatePolicyReport [unknownSeverityViolation]).summary.critical +
      (generatePolicyReport [unknownSeverityViolation]).summary.high +
      (generatePolicyReport [unknownSeverityViolation]).summary.medium +
      (generatePolicyReport [unknownSeverityViolation]).summary.low ≠
      (generatePolicyReport [unknownSeverityViolation]).summary.total := by
  decide

/-- C3 amended: for every input list of violations, the sum of the four
per-severity counts is at most `summary.total`; equality can fail when a
violation carries an unrecognized severity. -/
theorem severity_sum_le_total (l : List Violation) :
    (generatePolicyReport l).summary.critical + (generatePolicyReport l).summary.high +
      (generatePolicyReport l).summary.medium + (generatePolicyReport l).summary.low ≤
      (generatePolicyReport l).summary.total := by
  have h := severity_sum_eq_filter_recognized l
  have hle := List.length_filter_le (fun v => recognizedSeverity v.rule.severity) l
  simp only [generatePolicyReport]
  omega

/-- C4: the severity-count sum equals `summary.total` whenever every
violation's severity is one of the four recognized levels, and is
strictly below `summary.total` whenever some violation's severity is
unrecognized (such a violation counts in total but in no bucket). -/
theorem severity_sum_total_characterization (l : List Violation) :
    ((∀ v ∈ l, recognizedSeverity v.rule.severity = true) →
      (generatePolicyReport l).summary.critical + (generatePolicyReport l).summary.high +
        (generatePolicyReport l).summary.medium + (generatePolicyReport l).summary.low =
        (generatePolicyReport l).summary.total) ∧
    ((∃ v ∈ l, recognizedSeverity v.rule.severity = false) →
      (generatePolicyReport l).summary.critical + (generatePolicyReport l).summary.high +
        (generatePolicyReport l).summary.medium + (generatePolicyReport l).summary.low <
        (generatePolicyReport l).summary.total) := by
  have h := severity_sum_eq_filter_recognized l
  constructor
  · intro hall
    have heq : l.filter (fun v => recognizedSeverity v.rule.severity) = l :=
      List.filter_eq_self.mpr hall
    simp only [generatePolicyReport]
    rw [h, heq]
  · intro hex
    have hlt : (l.filter (fun v => recognizedSeverity v.rule.severity)).length < l.length := by
      rw [List.length_filter_lt_length_iff_exists]
      rcases hex with ⟨v, hv, hf⟩
      exact ⟨v, hv, by simp [hf]⟩
    simp only [generatePolicyReport]
    omega

/-- Witness for C4: the fixed dataset has all severities recognized and
its sum equals total; the unknown-severity singleton has sum below total. -/
theorem severity_sum_total_characterization_witness :
    ((generatePolicyReport policyViolations).summary.critical +
      (generatePolicyReport policyViolations).summary.high +
      (generatePolicyReport policyViolations).summary.medium +
      (generatePolicyReport policyViolations).summary.low =
      (generatePolicyReport policyViolations).summary.total) ∧
    ((generatePolicyReport [unknownSeverityViolation]).summary.critical +
      (generatePolicyReport [unknownSeverityViolation]).summary.high +
      (generatePolicyReport [unknownSeverityViolation]).summary.medium +
      (generatePolicyReport [unknownSeverityViolation]).summary.low <
      (generatePolicyReport [unknownSeverityViolation]).summary.total) :=
  ⟨(severity_sum_total_characterization policyViolations).1 (by decide),
   (severity_sum_total_characterization [unknownSeverityViolation]).2
     ⟨unknownSeverityViolation, List.mem_singleton.mpr rfl, by decide⟩⟩

/-- C5: the recommendation list is exactly the fixed-order concatenation
of the six messages, each present iff its triggering condition holds:
critical>0, high>0, medium>0, then positive category counts for
data-protection, audit and security. -/
theorem recommendations_eq_ordered_messages (l : List Violation) :
    (generatePolicyReport l).recommendations =
      (if (generatePolicyReport l).summary.critical > 0 then [criticalMsg] else []) ++
      (if (generatePolicyReport l).summary.high > 0 then [highMsg] else []) ++
      (if (generatePolicyReport l).summary.medium > 0 then [mediumMsg] else []) ++
      (if lookupCount (generatePolicyReport l).summary.byCategory "data-protection" > 0 then [dataProtectionMsg] else []) ++
      (if lookupCount (generatePolicyReport l).summary.byCategory "audit" > 0 then [auditMsg] else []) ++
      (if lookupCount (generatePolicyReport l).summary.byCategory "security" > 0 then [securityMsg] else []) := by
  simp only [generatePolicyReport]
  split_ifs <;> simp

/-- C6 fails as stated: on the fixed dataset the category map is exactly
security=3, data-protection=1, audit=1 — the security count is 3, not 2,
and there is no fourth category. -/
theorem scenario_c_security_count_is_three :
    (generatePolicyReport policyViolations).summary.byCategory =
        [("security", 3), ("data-protection", 1), ("audit", 1)] ∧
      lookupCount (generatePolicyReport policyViolations).summary.byCategory "security" ≠ 2 := by
  decide

/-- C6 amended: on the fixed five-violation dataset the report has
critical=2, high=2, medium=1, low=0, passed=false, category counts
security:3, data-protection:1, audit:1 (exactly three categories), and
the six recommendations in the fixed order. -/
theorem scenario_c_report_values :
    (generatePolicyReport policyViolations).summary.critical = 2 ∧
    (generatePolicyReport policyViolations).summary.high = 2 ∧
    (generatePolicyReport policyViolations).summary.medium = 1 ∧
    (generatePolicyReport policyViolations).summary.low = 0 ∧
    (generatePolicyReport policyViolations).passed = false ∧
    (generatePolicyReport policyViolations).summary.byCategory =
      [("security", 3), ("data-protection", 1), ("audit", 1)] ∧
    (generatePolicyReport policyViolations).recommendations =
      [criticalMsg, highMsg, mediumMsg, dataProtectionMsg, auditMsg, securityMsg] := by
  decide

/-- C7: the category counts sum to `summary.total`; in this data model
every violation carries exactly one category field, so the claim's
precondition always holds. -/
theorem byCategory_sum_eq_total (l : List Violation) :
    sumCounts (generatePolicyReport l).summary.byCategory =
      (generatePolicyReport l).summary.total := by
  simp only [generatePolicyReport]
  rw [sumCounts_foldl]
  simp [sumCounts]

/-- C8: on the empty violation list the report has total 0, passes, and
makes no recommendations. -/
theorem empty_input_report :
    (generatePolicyReport []).summary.total = 0 ∧
      (generatePolicyReport []).passed = true ∧
      (generatePolicyReport []).recommendations = [] := by
  decide

/-- C9: the recommendation list never has more than six entries. -/
theorem recommendations_length_le_six (l : List Violation) :
    (generatePolicyReport l).recommendations.length ≤ 6 := by
  simp only [generatePolicyReport]
  split_ifs <;> simp

/-- C10: the report's `violations` field is exactly the input list,
element for element; the aggregator is a pure function of its input and
leaves every violation record unchanged. -/
theorem report_violations_eq_input (l : List Violation) :
    (generatePolicyReport l).violations = l := rfl

end BankPolicyReview
